import Mathlib

/-!
Verification development for the CogNeo Edge Router two-tier cache pipeline.

The definitions below are a shallow embedding of `src/app/main.py`,
`src/app/semcache.py`, `src/app/tenants.py`, `src/app/types.py` and
`src/app/config.py`:

* Python dicts/JSON values are the inductive `Jv`;
* Python floats are modelled as rationals;
* external library functions (hashlib.sha256, json.dumps/json.loads on
  opaque upstream bodies, math.sqrt, the fastembed embedder, the pgvector
  `<=>` operator) are parameters of the environment `Env`, so every theorem
  is proved for all of their possible behaviours;
* network stores (the Valkey/Redis exact cache, the semantic-cache
  document store) are explicit state in `World`, and every best-effort
  exception path of the source is an explicit `Faults` flag;
* the asynchronous handlers are sequential state transformers, matching
  the single-request behaviour of the cooperative-I/O source.
-/

namespace Router

/-- JSON values, as used for Python dicts / payloads (`src/app/main.py`).
Python `None` is `Jv.null`; floats are modelled as rationals. -/
inductive Jv : Type where
  | null : Jv
  | bool (b : Bool) : Jv
  | int (n : Int) : Jv
  | rat (q : ℚ) : Jv
  | str (s : String) : Jv
  | arr (l : List Jv) : Jv
  | obj (l : List (String × Jv)) : Jv

/-- Python truthiness of an optional string: `None` and `""` are falsy. -/
def strTruthy : Option String → Bool
  | none => false
  | some s => s ≠ ""

/-- `Jv.isNull` models the Python test `v is None` on a JSON-decoded value. -/
def Jv.isNull : Jv → Bool
  | .null => true
  | _ => false

/-- JSON string escaping as performed by `json.dumps` (the characters that
occur in this model's payloads; control characters are escaped likewise). -/
def jsonEscape (s : String) : String :=
  s.toList.foldl (fun acc c =>
    if c = '"' then acc ++ "\\\""
    else if c = '\\' then acc ++ "\\\\"
    else if c = '\n' then acc ++ "\\n"
    else if c = '\t' then acc ++ "\\t"
    else if c = '\r' then acc ++ "\\r"
    else acc.push c) ""

/-- Rendering of a JSON number. Python serializes ints as decimal digits; the
float rendering is modelled by an injective rendering of the rational. -/
def numRepr (q : ℚ) : String :=
  if q.den = 1 then toString q.num else toString q.num ++ "/" ++ toString q.den

/-- Insert a rendered key/value pair into a key-sorted list
(`json.dumps(..., sort_keys=True)`). -/
def insertPair (kv : String × String) : List (String × String) → List (String × String)
  | [] => [kv]
  | x :: xs => if kv.1 < x.1 then kv :: x :: xs else x :: insertPair kv xs

/-- Sort rendered object fields by key (`sort_keys=True`). -/
def sortPairs (l : List (String × String)) : List (String × String) :=
  l.foldr insertPair []

/-- Join rendered object fields with the `(",", ":")` separators of
`json.dumps(..., separators=(",", ":"))`. -/
def joinPairs : List (String × String) → String
  | [] => ""
  | [kv] => "\"" ++ jsonEscape kv.1 ++ "\":" ++ kv.2
  | kv :: rest => "\"" ++ jsonEscape kv.1 ++ "\":" ++ kv.2 ++ "," ++ joinPairs rest

/-- Join rendered array elements with `","`. -/
def joinArr : List String → String
  | [] => ""
  | [s] => s
  | s :: rest => s ++ "," ++ joinArr rest

mutual

/-- Canonical serialization
`json.dumps(payload, sort_keys=True, separators=(",", ":"))`
from `_cache_key` in `src/app/main.py` (lines 157-160). -/
def dumpsJ : Jv → String
  | .null => "null"
  | .bool b => if b then "true" else "false"
  | .int n => toString n
  | .rat q => numRepr q
  | .str s => "\"" ++ jsonEscape s ++ "\""
  | .arr l => "[" ++ joinArr (dumpsArr l) ++ "]"
  | .obj l => "\x7b" ++ joinPairs (sortPairs (dumpsFields l)) ++ "\x7d"

/-- Render each array element. -/
def dumpsArr : List Jv → List String
  | [] => []
  | j :: rest => dumpsJ j :: dumpsArr rest

/-- Render each object field's value (keys are sorted afterwards; sorting
rendered pairs by key equals sorting before rendering). -/
def dumpsFields : List (String × Jv) → List (String × String)
  | [] => []
  | (k, v) :: rest => (k, dumpsJ v) :: dumpsFields rest

end

/-! ## Configuration (`src/app/config.py`) and tenants (`src/app/tenants.py`) -/

/-- The configuration fields of `Settings` (src/app/config.py) consumed by the
cache pipeline. -/
structure Settings : Type where
  cacheEnable : Bool
  cacheTtl : Nat
  cacheNormalizeQuery : Bool
  semcacheEnable : Bool
  semcacheProvider : String
  semcacheThreshold : ℚ
  semcacheTtl : Nat
deriving DecidableEq

/-- `TenantConfig` (src/app/tenants.py lines 6-22): the `upstreams` dict always
has exactly the keys postgres/oracle/opensearch with optional values, and
`auth` is a dict whose `user`/`pass` entries may be absent. -/
structure TenantConfig : Type where
  default_backend : String
  default_llm : String
  upsPostgres : Option String
  upsOracle : Option String
  upsOpensearch : Option String
  authUser : Option String
  authPass : Option String
deriving DecidableEq

/-- Python `str.lower()` (ASCII case, which is what backend/llm labels use);
implemented over the character list so that it reduces definitionally. -/
def pyLower (s : String) : String := String.mk (s.data.map Char.toLower)

/-- Python `a or b` for an optional string `a`: `None` and `""` fall back. -/
def pyOr (a : Option String) (b : String) : String :=
  match a with
  | some s => if s ≠ "" then s else b
  | none => b

/-- `TenantConfig.upstream_for` (src/app/tenants.py lines 18-22): raises
`ValueError` (modelled as `.error`) when the backend's URL is missing or
falsy. -/
def upstream_for (cfg : TenantConfig) (backend : String) : Except String String :=
  let b := pyLower backend
  let u : Option String :=
    match b with
    | "postgres" => cfg.upsPostgres
    | "oracle" => cfg.upsOracle
    | "opensearch" => cfg.upsOpensearch
    | _ => none
  match u with
  | some s =>
      if s ≠ "" then .ok s
      else .error ("Upstream not configured for backend " ++ b)
  | none => .error ("Upstream not configured for backend " ++ b)

/-- `pick_backend` (src/app/main.py lines 137-141): HTTPException 400 when the
lowered label is not one of postgres/oracle/opensearch. -/
def pick_backend (cfg : TenantConfig) (override : Option String) : Except String String :=
  let b := pyLower (pyOr override cfg.default_backend)
  if b = "postgres" ∨ b = "oracle" ∨ b = "opensearch" then .ok b
  else .error "Invalid backend"

/-- `pick_llm` (src/app/main.py lines 143-147). -/
def pick_llm (cfg : TenantConfig) (override : Option String) : Except String String :=
  let s := pyLower (pyOr override cfg.default_llm)
  if s = "ollama" ∨ s = "oci_genai" ∨ s = "bedrock" then .ok s
  else .error "Invalid llm_source"

/-- `upstream_and_auth` (src/app/main.py lines 149-155): the tenant auth pair
is applied only when both entries are truthy. Propagates the `ValueError` of
`upstream_for` (the handlers do not catch it). -/
def upstream_and_auth (cfg : TenantConfig) (backend : String) :
    Except String (String × Option (String × String)) :=
  match upstream_for cfg backend with
  | .error m => .error m
  | .ok base =>
      .ok (base,
        match cfg.authUser, cfg.authPass with
        | some u, some p => if u ≠ "" ∧ p ≠ "" then some (u, p) else none
        | _, _ => none)

/-! ## Request canonicalization (`src/app/main.py` lines 157-185) -/

/-- Python `\s` whitespace characters (ASCII range). -/
def isPyWs (c : Char) : Bool :=
  c = ' ' || c = '\t' || c = '\n' || c = '\r' || c = '\x0b' || c = '\x0c'

/-- `re.sub(r"\s+", " ", s)`: collapse each whitespace run to one space. -/
def collapseWs (l : List Char) : List Char :=
  l.foldr (fun c acc =>
    if isPyWs c then
      match acc with
      | ' ' :: _ => acc
      | _ => ' ' :: acc
    else c :: acc) []

/-- Python `str.strip()` on the collapsed text (only spaces remain at the
ends after collapsing). -/
def stripEnds (l : List Char) : List Char :=
  ((l.dropWhile (fun c => c = ' ')).reverse.dropWhile (fun c => c = ' ')).reverse

/-- `string.punctuation` from the Python standard library. -/
def pyPunctuation : List Char :=
  "!\"#$%&'()*+,-./:;<=>?@[\\]^_`\x7b|\x7d~".toList

/-- `_norm_text` (src/app/main.py lines 173-185): lowercase, collapse
whitespace, strip, remove ASCII punctuation — applied only when
`cache_normalize_query` is set. -/
def norm_text (S : Settings) (s : String) : String :=
  if S.cacheNormalizeQuery then
    let t := pyLower s
    let t2 := stripEnds (collapseWs t.toList)
    String.mk (t2.filter (fun c => ¬ pyPunctuation.contains c))
  else s

/-- Apply `_norm_text` to one field of a payload dict, as the handlers do with
`payload_cache["query"] = _norm_text(payload_cache["query"])`. Non-string
values are returned unchanged (the `isinstance` guard of `_norm_text`), and a
missing key leaves the dict unchanged (the `if "query" in payload_cache`
guard). -/
def normField (S : Settings) (j : Jv) (key : String) : Jv :=
  match j with
  | .obj l =>
      .obj (l.map (fun kv =>
        if kv.1 = key then
          (kv.1,
            match kv.2 with
            | .str s => .str (norm_text S s)
            | v => v)
        else kv))
  | other => other

/-! ## Environment, state and faults -/

/-- The result of the `httpx` upstream POST: either a transport error
(the exception `httpx` raises) or a status code with an optional JSON body
(`none` models a body on which `r.json()` raises). -/
inductive UpstreamResult (Body : Type) : Type where
  | transportError : UpstreamResult Body
  | resp (status : Nat) (body : Option Body) : UpstreamResult Body
deriving DecidableEq

/-- The environment of external collaborators of the pipeline. `Body` is the
opaque upstream response JSON ("body is opaque to the router", spec §6):
`dumps`/`loads` are `json.dumps`/`json.loads` on it, `hashHex` is
`hashlib.sha256(...).hexdigest()`, `sqrtQ` is `math.sqrt`, `cosDist` is the
pgvector `<=>` operator, `embedFn`/`embedEnabled` are the fastembed embedder,
and `upstream` is the upstream HTTP service. Theorems quantify over the whole
environment, so no property of these externals is assumed beyond what a
theorem states as a hypothesis. -/
structure Env (Body : Type) : Type where
  dumps : Body → String
  loads : String → Option Body
  hashHex : String → String
  sqrtQ : ℚ → ℚ
  cosDist : List ℚ → List ℚ → ℚ
  embedFn : String → List ℚ
  embedEnabled : Bool
  upstream : Jv → UpstreamResult Body

/-- One exact-cache entry: Redis `SETEX` stores the value with an absolute
expiry instant. -/
structure ExactEntry : Type where
  value : String
  expiresAt : Nat
deriving DecidableEq

/-- One semantic-cache document, with the columns/fields written by
`_OpenSearchProvider.index_doc` and `_PgVectorProvider._index`
(src/app/semcache.py lines 177-196 and 295-328). `expires_at` is optional in
the relational schema. -/
structure SemDoc : Type where
  tenant_id : String
  endpoint : String
  backend : String
  llm_source : Option String
  model : Option String
  query_text : String
  embedding : List ℚ
  response_json : String
  created_at : Nat
  expires_at : Option Nat
deriving DecidableEq

/-- The mutable state visible to a request: the exact cache (newest write
first), the semantic store, and the current time in seconds. -/
structure World : Type where
  exact : List (String × ExactEntry)
  sem : List SemDoc
  now : Nat
deriving DecidableEq

/-- Fault injection for every best-effort operation: a `true` flag makes the
corresponding external call raise, exercising the `except` path of the
source. -/
structure Faults : Type where
  exactGet : Bool
  exactSet : Bool
  embed : Bool
  semSearch : Bool
  semPut : Bool
deriving DecidableEq

/-- The fault-free schedule. -/
def noFaults : Faults :=
  { exactGet := false, exactSet := false, embed := false,
    semSearch := false, semPut := false }

/-- The handler's outcome as seen by FastAPI: a returned JSON value (HTTP
200), a raised `HTTPException`, or an exception the handler does not catch. -/
inductive RouterResult (Body : Type) : Type where
  | ok (body : Body) : RouterResult Body
  | httpError (code : Nat) (msg : String) : RouterResult Body
  | unhandled (msg : String) : RouterResult Body
deriving DecidableEq

/-- The HTTP status FastAPI sends for each handler outcome: a plain return is
200, an `HTTPException` carries its code, an uncaught exception is rendered
as 500 by the framework's default handler. -/
def statusOf {Body : Type} : RouterResult Body → Nat
  | .ok _ => 200
  | .httpError code _ => code
  | .unhandled _ => 500

/-- A finished request: the outcome, the post-request state, whether the
upstream was invoked, and — when it was — the forwarded body and the basic
auth used. -/
structure RunOut (Body : Type) : Type where
  result : RouterResult Body
  world : World
  calledUpstream : Bool
  sentBody : Option Jv
  sentAuth : Option (Option (Jv × Jv))

/-! ## Exact cache (`src/app/main.py` lines 57-116) -/

/-- `cache_get` (src/app/main.py lines 95-105): returns `None` when the cache
is disabled, on any cache error, on a miss, and after expiry (Redis TTL
semantics: a key written at `t` with TTL `ttl` is gone once `now ≥ t+ttl`). -/
def cache_get (S : Settings) (f : Faults) (w : World) (key : String) : Option String :=
  if S.cacheEnable then
    if f.exactGet then none
    else
      match w.exact.lookup key with
      | some e => if w.now < e.expiresAt then some e.value else none
      | none => none
  else none

/-- `cache_setex` (src/app/main.py lines 107-116): a silent drop when the
cache is disabled or the write errors; otherwise `SETEX key ttl value`. -/
def cache_setex (S : Settings) (f : Faults) (w : World) (key : String) (ttl : Nat)
    (value : String) : World :=
  if S.cacheEnable ∧ ¬ f.exactSet then
    { w with exact := (key, { value := value, expiresAt := w.now + ttl }) :: w.exact }
  else w

/-- `_cache_key` (src/app/main.py lines 157-160):
`f"{endpoint}:{backend}:{sha256(canonical-json)}"`. -/
def cache_key {Body : Type} (E : Env Body) (endpoint backend : String) (payload : Jv) : String :=
  endpoint ++ ":" ++ backend ++ ":" ++ E.hashHex (dumpsJ payload)

/-! ## Basic-auth override (`src/app/main.py` lines 162-171) -/

/-- `dict.pop(key, None)` on an association list: the (first) binding for the
key is removed and returned. -/
def jPopKey : List (String × Jv) → String → Option Jv × List (String × Jv)
  | [], _ => (none, [])
  | kv :: rest, k =>
      if kv.1 = k then (some kv.2, rest)
      else
        let r := jPopKey rest k
        (r.1, kv :: r.2)

/-- A popped JSON `null` is Python `None`, which `_extract_auth` treats the
same as an absent key. -/
def denull : Option Jv → Option Jv
  | some .null => none
  | x => x

/-- `_extract_auth` (src/app/main.py lines 162-171): pop the two reserved
keys from the payload; use them as basic auth only when both are present
(and not `None`), else keep the default auth. -/
def extract_auth (payload : Jv) (defaultAuth : Option (Jv × Jv)) :
    Option (Jv × Jv) × Jv :=
  match payload with
  | .obj l =>
      let r1 := jPopKey l "_upstream_user"
      let r2 := jPopKey r1.2 "_upstream_pass"
      match denull r1.1, denull r2.1 with
      | some uv, some pv => (some (uv, pv), .obj r2.2)
      | _, _ => (defaultAuth, .obj r2.2)
  | other => (defaultAuth, other)

/-- Lift the tenant's `(user, pass)` strings to the JSON-valued auth pair
that `_extract_auth` returns. -/
def authToJ : Option (String × String) → Option (Jv × Jv)
  | some up => some (.str up.1, .str up.2)
  | none => none

/-! ## Semantic cache (`src/app/semcache.py`) -/

/-- `SemContext` (src/app/semcache.py lines 40-46). -/
structure SemContext : Type where
  tenant_id : String
  endpoint : String
  backend : String
  llm_source : Option String := none
  model : Option String := none
deriving DecidableEq

/-- The `(dot, n1, n2)` accumulation loop of `_cosine_similarity`
(src/app/semcache.py lines 28-34). -/
def dotNorms (v1 v2 : List ℚ) : ℚ × ℚ × ℚ :=
  (v1.zip v2).foldl
    (fun acc p => (acc.1 + p.1 * p.2, acc.2.1 + p.1 * p.1, acc.2.2 + p.2 * p.2))
    (0, 0, 0)

/-- `_cosine_similarity` (src/app/semcache.py lines 25-37): `-1.0` for empty
or length-mismatched vectors and for non-positive squared norms, else
`dot / (sqrt(n1) * sqrt(n2))`. `sqrtQ` is the environment's model of
`math.sqrt`. -/
def cosine_similarity (sqrtQ : ℚ → ℚ) (v1 v2 : List ℚ) : ℚ :=
  if v1 = [] ∨ v2 = [] ∨ v1.length ≠ v2.length then -1
  else
    let a := dotNorms v1 v2
    if a.2.1 ≤ 0 ∨ a.2.2 ≤ 0 then -1
    else a.1 / (sqrtQ a.2.1 * sqrtQ a.2.2)

/-- The hard filters the router puts in the OpenSearch query body
(src/app/semcache.py lines 140-150): exact `term` filters on
tenant/endpoint/backend and `{"range": {"expires_at": {"gte": "now"}}}`.
A document with a null `expires_at` fails the range filter. -/
def osFilterBase (ctx : SemContext) (now : Nat) (d : SemDoc) : Bool :=
  d.tenant_id == ctx.tenant_id && d.endpoint == ctx.endpoint &&
  d.backend == ctx.backend &&
  (match d.expires_at with
   | some e => now ≤ e
   | none => false)

/-- The full OpenSearch filter: the `term` filters on `llm_source`/`model`
are appended only when the context value is truthy (src/app/semcache.py lines
151-154), and a `term` filter does not match a document whose field is
null. -/
def osFilter (ctx : SemContext) (now : Nat) (d : SemDoc) : Bool :=
  osFilterBase ctx now d &&
  (!strTruthy ctx.llm_source || d.llm_source == ctx.llm_source) &&
  (!strTruthy ctx.model || d.model == ctx.model)

/-- `_OpenSearchProvider.search` (src/app/semcache.py lines 134-175): the
store returns the nearest neighbour among the filtered documents (modelled as
the similarity argmax), and the router then independently recomputes cosine
similarity from the returned embedding and thresholds it before decoding
`response_json` (a decode failure is caught and becomes a miss). -/
def osSearch {Body : Type} (E : Env Body) (store : List SemDoc) (vec : List ℚ)
    (ctx : SemContext) (threshold : ℚ) (now : Nat) : Option Body :=
  match (store.filter (osFilter ctx now)).argmax
      (fun d => cosine_similarity E.sqrtQ vec d.embedding) with
  | none => none
  | some d =>
      if threshold ≤ cosine_similarity E.sqrtQ vec d.embedding then
        E.loads d.response_json
      else none

/-- The SQL `WHERE` clause of `_PgVectorProvider._search` (src/app/semcache.py
lines 268-280): exact equality on tenant/endpoint/backend,
`(llm_source IS NULL OR llm_source = %s)` (SQL `NULL = x` is never true, so a
null context value only matches null columns), same for `model`, and
`(expires_at IS NULL OR expires_at > now())`. -/
def pgFilter (ctx : SemContext) (now : Nat) (d : SemDoc) : Bool :=
  d.tenant_id == ctx.tenant_id && d.endpoint == ctx.endpoint &&
  d.backend == ctx.backend &&
  (d.llm_source == none || (!(ctx.llm_source == none) && d.llm_source == ctx.llm_source)) &&
  (d.model == none || (!(ctx.model == none) && d.model == ctx.model)) &&
  (match d.expires_at with
   | some e => now < e
   | none => true)

/-- `_PgVectorProvider._search` (src/app/semcache.py lines 260-293): order by
`embedding <=> query` (cosine distance computed by pgvector, modelled by the
environment's `cosDist`), take the top row, accept when
`1 - distance ≥ threshold`, decoding `response_json or "{}"` (a decode
failure is caught and becomes a miss). -/
def pgSearch {Body : Type} (E : Env Body) (store : List SemDoc) (vec : List ℚ)
    (ctx : SemContext) (threshold : ℚ) (now : Nat) : Option Body :=
  match (store.filter (pgFilter ctx now)).argmin
      (fun d => E.cosDist d.embedding vec) with
  | none => none
  | some d =>
      if threshold ≤ 1 - E.cosDist d.embedding vec then
        E.loads (if d.response_json = "" then "\x7b\x7d" else d.response_json)
      else none

/-- The `enabled` flag `SemanticCache.__init__` computes (src/app/semcache.py
lines 340-379): the setting must be on, the embedder available, and the
provider string (lowered and stripped) recognized. -/
def semEnabled (S : Settings) (embedEnabled : Bool) : Bool :=
  S.semcacheEnable && embedEnabled &&
  (let p := (pyLower S.semcacheProvider).trim
   p == "opensearch" || p == "pgvector")

/-- `_Embedder.embed` (src/app/semcache.py lines 78-89): `None` when the
embedder is disabled, the text empty, or the embedding call raises. -/
def semEmbed {Body : Type} (E : Env Body) (f : Faults) (text : String) :
    Option (List ℚ) :=
  if E.embedEnabled ∧ text ≠ "" ∧ ¬ f.embed then some (E.embedFn text) else none

/-- `SemanticCache.try_get` (src/app/semcache.py lines 392-405): gated on the
cache being enabled and the text truthy; an empty embedding vector, a store
error (`f.semSearch`), or a provider miss all yield `None`. The provider is
dispatched on the configured provider string. -/
def sem_try_get {Body : Type} (S : Settings) (E : Env Body) (f : Faults)
    (store : List SemDoc) (now : Nat) (text : String) (ctx : SemContext) :
    Option Body :=
  if semEnabled S E.embedEnabled ∧ text ≠ "" then
    match semEmbed E f text with
    | none => none
    | some vec =>
        if vec = [] then none
        else if f.semSearch then none
        else if (pyLower S.semcacheProvider).trim = "opensearch" then
          osSearch E store vec ctx S.semcacheThreshold now
        else
          pgSearch E store vec ctx S.semcacheThreshold now
  else none

/-- `SemanticCache.put` (src/app/semcache.py lines 407-417) together with the
providers' `index_doc`/`_index`: append a row with
`expires_at = now + ttl`; embedder failure or a store error (`f.semPut`) is a
silent drop. -/
def sem_put {Body : Type} (S : Settings) (E : Env Body) (f : Faults) (w : World)
    (text : String) (ctx : SemContext) (resp : Body) : World :=
  if semEnabled S E.embedEnabled ∧ text ≠ "" then
    match semEmbed E f text with
    | none => w
    | some vec =>
        if vec = [] then w
        else if f.semPut then w
        else
          { w with sem :=
              { tenant_id := ctx.tenant_id, endpoint := ctx.endpoint,
                backend := ctx.backend, llm_source := ctx.llm_source,
                model := ctx.model, query_text := text, embedding := vec,
                response_json := E.dumps resp, created_at := w.now,
                expires_at := some (w.now + S.semcacheTtl) } :: w.sem }
  else w

/-! ## Request models (`src/app/types.py`) -/

/-- `VectorReq` (src/app/types.py lines 10-13). -/
structure VectorReq : Type where
  query : String
  top_k : Int := 5
  backend : Option String := none

/-- `HybridReq` (src/app/types.py lines 4-8). -/
structure HybridReq : Type where
  query : String
  top_k : Int := 5
  alpha : ℚ := 1/2
  backend : Option String := none

/-- `FtsReq` (src/app/types.py lines 15-19). -/
structure FtsReq : Type where
  query : String
  top_k : Int := 10
  mode : String := "both"
  backend : Option String := none

/-- `RagReq` (src/app/types.py lines 21-35). `chunk_metadata` and
`chat_history` entries are arbitrary JSON. -/
structure RagReq : Type where
  question : String
  backend : Option String := none
  llm_source : Option String := none
  model : Option String := none
  region : Option String := none
  context_chunks : Option (List String) := none
  sources : Option (List String) := none
  chunk_metadata : Option (List Jv) := none
  custom_prompt : Option String := none
  temperature : Option ℚ := some (1/10)
  top_p : Option ℚ := some (9/10)
  max_tokens : Option Int := some 1024
  repeat_penalty : Option ℚ := some (11/10)
  chat_history : Option (List Jv) := none

/-- `ChatReq` (src/app/types.py lines 37-48). -/
structure ChatReq : Type where
  message : String
  backend : Option String := none
  llm_source : Option String := none
  model : Option String := none
  top_k : Int := 10
  system_prompt : Option String := none
  chat_history : Option (List Jv) := none
  temperature : Option ℚ := some (1/10)
  top_p : Option ℚ := some (9/10)
  max_tokens : Option Int := some 1024
  repeat_penalty : Option ℚ := some (11/10)

/-! ## The dispatch pipeline (`src/app/main.py` lines 192-466)

Each handler is split into its pure prelude (`*_stage`: tenant config is
already resolved, backend picked, upstream resolved, payload composed, auth
extracted, cache key built) and the shared tail (`runTail`: exact lookup →
semantic lookup → upstream call → double-write), exactly the statement order
of the source. -/

/-- The values the prelude of a handler passes to the shared pipeline tail.
`semLlm` is the deferred `pick_llm` computation of the RAG handler, whose
`HTTPException` is raised at the semantic-lookup step, i.e. after the exact
lookup (src/app/main.py lines 310-319). -/
structure TailArgs : Type where
  backend : String
  endpoint : String
  path : String
  ck : String
  semText : String
  semLlm : Except String (Option String)
  semModel : Option String
  fwdBody : Jv
  authEff : Option (Jv × Jv)

/-- A request that ends in the prelude (400 / uncaught error) leaves the
world untouched and never reaches the upstream. -/
def earlyOut {Body : Type} (r : RouterResult Body) (w : World) : RunOut Body :=
  { result := r, world := w, calledUpstream := false, sentBody := none,
    sentAuth := none }

/-- The exact-cache-miss continuation: semantic lookup, upstream call,
double-write (semantic first, then `SETEX`), return — the statement order of
every handler in src/app/main.py (e.g. lines 209-224 for
`/v1/search/vector`). -/
def runMiss {Body : Type} (S : Settings) (E : Env Body) (f : Faults) (w : World)
    (tenantId : String) (a : TailArgs) : RunOut Body :=
  match a.semLlm with
  | .error e => earlyOut (.httpError 400 e) w
  | .ok llm =>
    let ctx : SemContext :=
      { tenant_id := tenantId, endpoint := a.endpoint, backend := a.backend,
        llm_source := llm, model := a.semModel }
    match sem_try_get S E f w.sem w.now a.semText ctx with
    | some b => { result := .ok b, world := w, calledUpstream := false,
                  sentBody := none, sentAuth := none }
    | none =>
      match E.upstream a.fwdBody with
      | .transportError =>
          { result := .unhandled "httpx transport error", world := w,
            calledUpstream := true, sentBody := some a.fwdBody,
            sentAuth := some a.authEff }
      | .resp st ob =>
          if 500 ≤ st then
            { result := .httpError 502 ("Upstream error (" ++ a.backend ++ ")"),
              world := w, calledUpstream := true, sentBody := some a.fwdBody,
              sentAuth := some a.authEff }
          else
            match ob with
            | none =>
                { result := .unhandled "r.json() decode error", world := w,
                  calledUpstream := true, sentBody := some a.fwdBody,
                  sentAuth := some a.authEff }
            | some out =>
                let w1 := sem_put S E f w a.semText ctx out
                let w2 := cache_setex S f w1 a.ck S.cacheTtl (E.dumps out)
                { result := .ok out, world := w2, calledUpstream := true,
                  sentBody := some a.fwdBody, sentAuth := some a.authEff }

/-- The shared pipeline tail: `hit = await cache_get(ck); if hit: return
json.loads(hit)` (an empty cached string is falsy and treated as a miss),
else the miss continuation. -/
def runTail {Body : Type} (S : Settings) (E : Env Body) (f : Faults) (w : World)
    (tenantId : String) (a : TailArgs) : RunOut Body :=
  match cache_get S f w a.ck with
  | some s =>
      if s = "" then runMiss S E f w tenantId a
      else
        match E.loads s with
        | some b =>
            { result := .ok b, world := w, calledUpstream := false,
              sentBody := none, sentAuth := none }
        | none => earlyOut (.unhandled "json.loads decode error") w
  | none => runMiss S E f w tenantId a

/-- One optional payload field under `model_dump(exclude_none=True)`: absent
when the value is `None`. -/
def optField (k : String) : Option Jv → List (String × Jv)
  | some v => [(k, v)]
  | none => []

/-- A Python `Optional[str]` value placed in a dict literal: `None` is JSON
null. -/
def optStrJ : Option String → Jv
  | some s => .str s
  | none => .null

/-- A Python `Optional[float]` value placed in a dict literal. -/
def optRatJ : Option ℚ → Jv
  | some q => .rat q
  | none => .null

/-- A Python `Optional[int]` value placed in a dict literal. -/
def optIntJ : Option Int → Jv
  | some n => .int n
  | none => .null

/-- A Python `Optional[list]` value placed in a dict literal. -/
def optArrJ : Option (List Jv) → Jv
  | some l => .arr l
  | none => .null

/-- Keep only the listed keys of a dict (the chat handlers' `key_subset`
comprehension, src/app/main.py line 363). -/
def objFilterKeys (j : Jv) (keys : List String) : Jv :=
  match j with
  | .obj l => .obj (l.filter (fun kv => keys.contains kv.1))
  | other => other

/-- Drop `None`-valued entries of a dict (the chat handlers' forwarded-body
comprehension, src/app/main.py line 386). -/
def objDropNulls (j : Jv) : Jv :=
  match j with
  | .obj l => .obj (l.filter (fun kv => !kv.2.isNull))
  | other => other

/-- Prelude of `vector_search` (src/app/main.py lines 192-204). -/
def vector_stage {Body : Type} (S : Settings) (E : Env Body) (cfg : TenantConfig)
    (req : VectorReq) : Except (RouterResult Body) TailArgs :=
  match pick_backend cfg req.backend with
  | .error e => .error (.httpError 400 e)
  | .ok backend =>
    match upstream_and_auth cfg backend with
    | .error m => .error (.unhandled m)
    | .ok ba =>
      let payload : Jv := .obj [("query", .str req.query), ("top_k", .int req.top_k)]
      let ea := extract_auth payload (authToJ ba.2)
      let payloadCache := normField S ea.2 "query"
      .ok { backend := backend, endpoint := "/v1/search/vector",
            path := "/search/vector",
            ck := cache_key E "/v1/search/vector" backend payloadCache,
            semText := req.query, semLlm := .ok none, semModel := none,
            fwdBody := ea.2, authEff := ea.1 }

/-- Prelude of `hybrid_search` (src/app/main.py lines 226-237). -/
def hybrid_stage {Body : Type} (S : Settings) (E : Env Body) (cfg : TenantConfig)
    (req : HybridReq) : Except (RouterResult Body) TailArgs :=
  match pick_backend cfg req.backend with
  | .error e => .error (.httpError 400 e)
  | .ok backend =>
    match upstream_and_auth cfg backend with
    | .error m => .error (.unhandled m)
    | .ok ba =>
      let payload : Jv := .obj [("query", .str req.query), ("top_k", .int req.top_k),
                                ("alpha", .rat req.alpha)]
      let ea := extract_auth payload (authToJ ba.2)
      let payloadCache := normField S ea.2 "query"
      .ok { backend := backend, endpoint := "/v1/search/hybrid",
            path := "/search/hybrid",
            ck := cache_key E "/v1/search/hybrid" backend payloadCache,
            semText := req.query, semLlm := .ok none, semModel := none,
            fwdBody := ea.2, authEff := ea.1 }

/-- Prelude of `fts_search` (src/app/main.py lines 258-269). -/
def fts_stage {Body : Type} (S : Settings) (E : Env Body) (cfg : TenantConfig)
    (req : FtsReq) : Except (RouterResult Body) TailArgs :=
  match pick_backend cfg req.backend with
  | .error e => .error (.httpError 400 e)
  | .ok backend =>
    match upstream_and_auth cfg backend with
    | .error m => .error (.unhandled m)
    | .ok ba =>
      let payload : Jv := .obj [("query", .str req.query), ("top_k", .int req.top_k),
                                ("mode", .str req.mode)]
      let ea := extract_auth payload (authToJ ba.2)
      let payloadCache := normField S ea.2 "query"
      .ok { backend := backend, endpoint := "/v1/search/fts",
            path := "/search/fts",
            ck := cache_key E "/v1/search/fts" backend payloadCache,
            semText := req.query, semLlm := .ok none, semModel := none,
            fwdBody := ea.2, authEff := ea.1 }

/-- `req.model_dump(exclude_none=True)` for `RagReq` (src/app/main.py line
297): fields in declaration order, `None` fields omitted. -/
def ragPayload (req : RagReq) : Jv :=
  .obj ([("question", Jv.str req.question)]
    ++ optField "backend" (req.backend.map .str)
    ++ optField "llm_source" (req.llm_source.map .str)
    ++ optField "model" (req.model.map .str)
    ++ optField "region" (req.region.map .str)
    ++ optField "context_chunks" (req.context_chunks.map (fun l => .arr (l.map .str)))
    ++ optField "sources" (req.sources.map (fun l => .arr (l.map .str)))
    ++ optField "chunk_metadata" (req.chunk_metadata.map .arr)
    ++ optField "custom_prompt" (req.custom_prompt.map .str)
    ++ optField "temperature" (req.temperature.map .rat)
    ++ optField "top_p" (req.top_p.map .rat)
    ++ optField "max_tokens" (req.max_tokens.map .int)
    ++ optField "repeat_penalty" (req.repeat_penalty.map .rat)
    ++ optField "chat_history" (req.chat_history.map .arr))

/-- Prelude of `rag` (src/app/main.py lines 291-303). The `pick_llm` call of
the semantic-cache context (line 316) is deferred into `semLlm` because the
source evaluates it only after the exact-cache lookup. -/
def rag_stage {Body : Type} (S : Settings) (E : Env Body) (cfg : TenantConfig)
    (req : RagReq) : Except (RouterResult Body) TailArgs :=
  match pick_backend cfg req.backend with
  | .error e => .error (.httpError 400 e)
  | .ok backend =>
    match upstream_and_auth cfg backend with
    | .error m => .error (.unhandled m)
    | .ok ba =>
      let ea := extract_auth (ragPayload req) (authToJ ba.2)
      let payloadCache := normField S ea.2 "question"
      .ok { backend := backend, endpoint := "/v1/search/rag",
            path := "/search/rag",
            ck := cache_key E "/v1/search/rag" backend payloadCache,
            semText := req.question,
            semLlm := (pick_llm cfg req.llm_source).map some,
            semModel := req.model,
            fwdBody := ea.2, authEff := ea.1 }

/-- The chat handlers' payload dict literal (src/app/main.py lines 350-361),
which deliberately keeps `None` values. -/
def chatPayload (llm : String) (req : ChatReq) : Jv :=
  .obj [("llm_source", .str llm), ("model", optStrJ req.model),
        ("message", .str req.message), ("chat_history", optArrJ req.chat_history),
        ("system_prompt", optStrJ req.system_prompt),
        ("temperature", optRatJ req.temperature), ("top_p", optRatJ req.top_p),
        ("max_tokens", optIntJ req.max_tokens),
        ("repeat_penalty", optRatJ req.repeat_penalty), ("top_k", .int req.top_k)]

/-- Prelude shared by `chat_conversation` (src/app/main.py lines 344-366) and
`chat_agentic` (lines 406-428), which differ only in the endpoint and path
labels: backend and llm validated up front, cache key over the
`{llm_source, model, message, top_k}` subset with the message normalized,
forwarded body with `None` values dropped. -/
def chat_stage {Body : Type} (endpoint path : String) (S : Settings) (E : Env Body)
    (cfg : TenantConfig) (req : ChatReq) : Except (RouterResult Body) TailArgs :=
  match pick_backend cfg req.backend with
  | .error e => .error (.httpError 400 e)
  | .ok backend =>
    match upstream_and_auth cfg backend with
    | .error m => .error (.unhandled m)
    | .ok ba =>
      match pick_llm cfg req.llm_source with
      | .error e => .error (.httpError 400 e)
      | .ok llm =>
        let ea := extract_auth (chatPayload llm req) (authToJ ba.2)
        let keySubset :=
          normField S (objFilterKeys ea.2 ["llm_source", "model", "message", "top_k"])
            "message"
        .ok { backend := backend, endpoint := endpoint, path := path,
              ck := cache_key E endpoint backend keySubset,
              semText := req.message, semLlm := .ok (some llm),
              semModel := req.model,
              fwdBody := objDropNulls ea.2, authEff := ea.1 }

/-- Dispatch a staged request: an early error is returned as-is with the
world untouched, otherwise the pipeline tail runs. -/
def runStage {Body : Type} (S : Settings) (E : Env Body) (f : Faults) (w : World)
    (tenantId : String) : Except (RouterResult Body) TailArgs → RunOut Body
  | .error r => earlyOut r w
  | .ok a => runTail S E f w tenantId a

/-- An inbound request to any of the six cached endpoints. -/
inductive Req : Type where
  | vector (r : VectorReq)
  | hybrid (r : HybridReq)
  | fts (r : FtsReq)
  | rag (r : RagReq)
  | chat (r : ChatReq)
  | agentic (r : ChatReq)

/-- The prelude of the handler serving each request. -/
def stageOf {Body : Type} (S : Settings) (E : Env Body) (cfg : TenantConfig) :
    Req → Except (RouterResult Body) TailArgs
  | .vector r => vector_stage S E cfg r
  | .hybrid r => hybrid_stage S E cfg r
  | .fts r => fts_stage S E cfg r
  | .rag r => rag_stage S E cfg r
  | .chat r => chat_stage "/v1/chat/conversation" "/chat/conversation" S E cfg r
  | .agentic r => chat_stage "/v1/chat/agentic" "/chat/agentic" S E cfg r

/-- Serve one request end to end (tenant already resolved, as by
`resolve_tenant`): the full per-endpoint handler body of src/app/main.py. -/
def run {Body : Type} (S : Settings) (E : Env Body) (tenantId : String)
    (cfg : TenantConfig) (f : Faults) (w : World) (req : Req) : RunOut Body :=
  runStage S E f w tenantId (stageOf S E cfg req)

/-- The backend-override field of each request model. -/
def reqBackend : Req → Option String
  | .vector r => r.backend
  | .hybrid r => r.backend
  | .fts r => r.backend
  | .rag r => r.backend
  | .chat r => r.backend
  | .agentic r => r.backend

/-! ## HTTP-surface decoding of `FtsReq` -/

/-- Field access on a decoded JSON object. -/
def jGet (j : Jv) (k : String) : Option Jv :=
  match j with
  | .obj l => l.lookup k
  | _ => none

/-- Decoding of an inbound JSON body into `FtsReq` (src/app/types.py lines
15-19) as FastAPI/pydantic perform it: the declared fields are read (with the
declared defaults), and by pydantic's default configuration every undeclared
key of the body is ignored and dropped. -/
def decodeFts (j : Jv) : Option FtsReq :=
  match j with
  | .obj _ =>
    match jGet j "query" with
    | some (.str q) =>
      let tk : Option Int :=
        match jGet j "top_k" with
        | none => some 10
        | some (.int n) => some n
        | some _ => none
      let md : Option String :=
        match jGet j "mode" with
        | none => some "both"
        | some (.str s) => some s
        | some _ => none
      let bk : Option (Option String) :=
        match jGet j "backend" with
        | none => some none
        | some .null => some none
        | some (.str s) => some (some s)
        | some _ => none
      match tk, md, bk with
      | some k, some m, some b =>
          some { query := q, top_k := k, mode := m, backend := b }
      | _, _, _ => none
    | _ => none
  | _ => none

/-- The `/v1/search/fts` endpoint from the raw inbound JSON body: validation
(HTTP 422 on failure, FastAPI's behaviour) followed by the handler. -/
def serve_fts {Body : Type} (S : Settings) (E : Env Body) (tenantId : String)
    (cfg : TenantConfig) (f : Faults) (w : World) (raw : Jv) : RunOut Body :=
  match decodeFts raw with
  | none => earlyOut (.httpError 422 "request validation error") w
  | some req => run S E tenantId cfg f w (.fts req)

/-! ## Concrete instantiations used by witnesses and counterexamples -/

/-- A concrete environment over the opaque body type `Unit`, parameterized by
the upstream behaviour; `hashHex` and `sqrtQ` are instantiated with functions
that agree with the real sha256/sqrt where the theorems evaluate them. -/
def envU (u : Jv → UpstreamResult Unit) : Env Unit :=
  { dumps := fun _ => "r", loads := fun _ => some (), hashHex := fun s => s,
    sqrtQ := fun q => q, cosDist := fun _ _ => 0, embedFn := fun _ => [1],
    embedEnabled := true, upstream := u }

/-- A baseline configuration: exact cache on (TTL 60), normalization off,
semantic cache off. -/
def S0 : Settings :=
  { cacheEnable := true, cacheTtl := 60, cacheNormalizeQuery := false,
    semcacheEnable := false, semcacheProvider := "opensearch",
    semcacheThreshold := 9/10, semcacheTtl := 3600 }

/-- A tenant with only the opensearch upstream configured and no
credentials. -/
def cfg0 : TenantConfig :=
  { default_backend := "opensearch", default_llm := "ollama",
    upsPostgres := none, upsOracle := none,
    upsOpensearch := some "http://up", authUser := none, authPass := none }

/-- The empty initial world at time 0. -/
def w0 : World := { exact := [], sem := [], now := 0 }

/-- The success upstream used by several witnesses. -/
def upOK : Jv → UpstreamResult Unit := fun _ => .resp 200 (some ())

/-- The concrete environment used by the semantic-cache evaluations. -/
def envOK : Env Unit := envU upOK

/-- Stored entry for the C2 counterexample: it expires exactly at instant 5. -/
def dC2 : SemDoc :=
  { tenant_id := "t", endpoint := "/v1/search/vector", backend := "opensearch",
    llm_source := none, model := none, query_text := "q", embedding := [1],
    response_json := "r", created_at := 0, expires_at := some 5 }

/-- Query context for the C2 counterexample. -/
def ctxC2 : SemContext :=
  { tenant_id := "t", endpoint := "/v1/search/vector", backend := "opensearch" }

/-- Stored entry for the C2 witness: fresh at instant 3. -/
def dW2 : SemDoc :=
  { tenant_id := "t2", endpoint := "/v1/search/hybrid", backend := "postgres",
    llm_source := none, model := none, query_text := "q2", embedding := [1],
    response_json := "r", created_at := 0, expires_at := some 10 }

/-- Query context for the C2 witness. -/
def ctxW2 : SemContext :=
  { tenant_id := "t2", endpoint := "/v1/search/hybrid", backend := "postgres" }

/-- Stored entry for the C8 counterexample: null `llm_source` and `model`. -/
def d8 : SemDoc :=
  { tenant_id := "t", endpoint := "/v1/search/rag", backend := "postgres",
    llm_source := none, model := none, query_text := "q", embedding := [1],
    response_json := "r", created_at := 0, expires_at := some 10 }

/-- Query context for the C8 counterexample: `llm_source` present. -/
def ctx8 : SemContext :=
  { tenant_id := "t", endpoint := "/v1/search/rag", backend := "postgres",
    llm_source := some "ollama", model := none }

/-- Stored entry for the C8 witness. -/
def d8w : SemDoc :=
  { tenant_id := "t3", endpoint := "/v1/chat/conversation", backend := "oracle",
    llm_source := none, model := none, query_text := "q3", embedding := [1],
    response_json := "r", created_at := 0, expires_at := none }

/-- Query context for the C8 witness. -/
def ctx8w : SemContext :=
  { tenant_id := "t3", endpoint := "/v1/chat/conversation", backend := "oracle",
    llm_source := some "bedrock", model := some "m1" }

/-- The configuration that disables exactly the cache tiers whose reads the
fault schedule breaks: a broken exact-cache read behaves like
`CACHE_ENABLE=0`, and a broken embedder or semantic-store read behaves like
`SEMCACHE_ENABLE=0`. Used to state that cache failures are response-invisible
(spec §7). -/
def disableFaulted (S : Settings) (f : Faults) : Settings :=
  { S with cacheEnable := S.cacheEnable && !f.exactGet,
           semcacheEnable := S.semcacheEnable && !f.embed && !f.semSearch }

/-- A configuration with both cache tiers disabled. -/
def Soff : Settings :=
  { cacheEnable := false, cacheTtl := 60, cacheNormalizeQuery := false,
    semcacheEnable := false, semcacheProvider := "opensearch",
    semcacheThreshold := 9/10, semcacheTtl := 3600 }

/-- An upstream returning 404 with a JSON body. -/
def up404 : Jv → UpstreamResult Unit := fun _ => .resp 404 (some ())

/-- An upstream returning 503. -/
def up503 : Jv → UpstreamResult Unit := fun _ => .resp 503 (some ())

/-- An unreachable upstream: every call is a transport error. -/
def upDown : Jv → UpstreamResult Unit := fun _ => .transportError

/-- A tenant whose descriptor lacks the postgres upstream URL. -/
def cfgNoPg : TenantConfig :=
  { default_backend := "postgres", default_llm := "ollama",
    upsPostgres := none, upsOracle := none,
    upsOpensearch := some "http://up", authUser := none, authPass := none }

/-- A tenant with configured basic-auth credentials. -/
def cfgAuth : TenantConfig :=
  { default_backend := "opensearch", default_llm := "ollama",
    upsPostgres := none, upsOracle := none,
    upsOpensearch := some "http://up", authUser := some "tu",
    authPass := some "tp" }

/-- An upstream returning 418 with a JSON body. -/
def up418 : Jv → UpstreamResult Unit := fun _ => .resp 418 (some ())

/-- A tenant whose descriptor lacks the oracle upstream URL. -/
def cfgNoOra : TenantConfig :=
  { default_backend := "oracle", default_llm := "ollama",
    upsPostgres := none, upsOracle := none,
    upsOpensearch := some "http://up", authUser := none, authPass := none }

/-- The S6 scenario body: an fts request carrying the reserved auth-override
keys. -/
def rawC4 : Jv :=
  .obj [("query", .str "q"), ("top_k", .int 5), ("mode", .str "both"),
        ("_upstream_user", .str "u"), ("_upstream_pass", .str "p")]

/-! ## Theorems -/

/-- Degenerate inputs make `_cosine_similarity` return `-1`. -/
theorem cosine_similarity_degenerate (sq : ℚ → ℚ) (v1 v2 : List ℚ)
    (h : v1 = [] ∨ v2 = [] ∨ v1.length ≠ v2.length ∨
      (dotNorms v1 v2).2.1 ≤ 0 ∨ (dotNorms v1 v2).2.2 ≤ 0) :
    cosine_similarity sq v1 v2 = -1 := by
  unfold cosine_similarity
  by_cases hg : v1 = [] ∨ v2 = [] ∨ v1.length ≠ v2.length
  · simp [hg]
  · rcases h with h | h | h | h | h
    · exact absurd (Or.inl h) hg
    · exact absurd (Or.inr (Or.inl h)) hg
    · exact absurd (Or.inr (Or.inr h)) hg
    · simp [hg, h]
    · simp [hg, h]

/-- C10: for every pair of vectors that are empty, of unequal length, or with
a non-positive accumulated squared norm, `_cosine_similarity` returns `-1`,
which is strictly below every threshold `≥ 0` (hence every threshold in
`[0, 1]`); consequently, for the vector-index provider — where the router
recomputes the similarity from the stored embedding before thresholding — a
store in which every embedding's dimension differs from the query vector's
can never produce a semantic-cache hit. -/
theorem C10_degenerate_cosine_never_hits :
    (∀ (sq : ℚ → ℚ) (v1 v2 : List ℚ),
        (v1 = [] ∨ v2 = [] ∨ v1.length ≠ v2.length ∨
          (dotNorms v1 v2).2.1 ≤ 0 ∨ (dotNorms v1 v2).2.2 ≤ 0) →
        cosine_similarity sq v1 v2 = -1) ∧
    (∀ th : ℚ, 0 ≤ th → (-1 : ℚ) < th) ∧
    (∀ (Body : Type) (E : Env Body) (store : List SemDoc) (vec : List ℚ)
        (ctx : SemContext) (th : ℚ) (now : Nat),
        0 ≤ th → (∀ d ∈ store, d.embedding.length ≠ vec.length) →
        osSearch E store vec ctx th now = none) := by
  refine ⟨cosine_similarity_degenerate, fun th hth => by linarith, ?_⟩
  intro Body E store vec ctx th now hth hdim
  unfold osSearch
  rcases hm : (store.filter (osFilter ctx now)).argmax
      (fun d => cosine_similarity E.sqrtQ vec d.embedding) with _ | d
  · rw [hm]
  · rw [hm]
    dsimp only
    have hmem : d ∈ store.filter (osFilter ctx now) :=
      List.argmax_mem (Option.mem_def.mpr hm)
    have hstore : d ∈ store := (List.mem_filter.mp hmem).1
    have hsim : cosine_similarity E.sqrtQ vec d.embedding = -1 :=
      cosine_similarity_degenerate _ _ _
        (Or.inr (Or.inr (Or.inl (fun he => hdim d hstore he.symm))))
    rw [hsim, if_neg (by linarith)]

/-- C10 witness: a one-dimensional query against a two-dimensional embedding
is rejected. -/
theorem C10_witness :
    cosine_similarity (fun q => q) [1] [1, 2] = -1 ∧
    ((-1 : ℚ) < 9/10) ∧
    osSearch (envU (fun _ => .resp 200 (some ())))
      [{ tenant_id := "t", endpoint := "/v1/search/vector",
         backend := "opensearch", llm_source := none, model := none,
         query_text := "q", embedding := [1, 2], response_json := "r",
         created_at := 0, expires_at := some 9 }] [1]
      { tenant_id := "t", endpoint := "/v1/search/vector",
        backend := "opensearch" } (9/10) 3 = none :=
  ⟨C10_degenerate_cosine_never_hits.1 (fun q => q) [1] [1, 2] (by decide),
   C10_degenerate_cosine_never_hits.2.1 (9/10) (by norm_num),
   C10_degenerate_cosine_never_hits.2.2 Unit (envU (fun _ => .resp 200 (some ())))
     _ [1] _ (9/10) 3 (by norm_num) (by decide)⟩

/-- C2 counterexample: the claim requires `expires_at` strictly in the future
for a hit, but the vector-index provider's freshness filter is the inclusive
`{"range": {"expires_at": {"gte": "now"}}}` (src/app/semcache.py line 146):
at time 5, a stored entry with `expires_at = 5` and matching filters and
cosine similarity 1 ≥ 0.9 is returned as a hit even though its `expires_at`
is not in the future. -/
theorem C2_counterexample :
    osSearch envOK [dC2] [1] ctxC2 (9/10) 5 = some () ∧ ¬ (5 < 5) := by
  refine ⟨?_, by decide⟩
  have hfil : List.filter (osFilter ctxC2 5) [dC2] = [dC2] := by decide
  have hsim : cosine_similarity envOK.sqrtQ [1] dC2.embedding = 1 := by
    norm_num [cosine_similarity, dotNorms, envOK, envU, dC2]
  unfold osSearch
  rw [hfil, List.argmax_singleton]
  dsimp only
  rw [hsim]
  rw [if_pos (by norm_num)]
  rfl

/-- C2 amended: a semantic-cache lookup returns a stored entry as a hit only
if its `tenant_id`, `endpoint` and `backend` exactly match the query context
and it is fresh and similar enough — where freshness is `expires_at ≥ now`
(boundary inclusive) for the vector-index provider, and `expires_at` null or
strictly future for the relational provider; similarity is the
router-recomputed cosine similarity ≥ threshold for the vector-index
provider, and the store-computed `1 - (embedding <=> query) ≥ threshold` for
the relational provider. Otherwise the lookup misses. -/
theorem C2_semantic_hit_conditions {Body : Type} (E : Env Body)
    (store : List SemDoc) (vec : List ℚ) (ctx : SemContext) (th : ℚ)
    (now : Nat) (b : Body) :
    (osSearch E store vec ctx th now = some b →
      ∃ d ∈ store, d.tenant_id = ctx.tenant_id ∧ d.endpoint = ctx.endpoint ∧
        d.backend = ctx.backend ∧ (∃ e, d.expires_at = some e ∧ now ≤ e) ∧
        th ≤ cosine_similarity E.sqrtQ vec d.embedding ∧
        E.loads d.response_json = some b) ∧
    (pgSearch E store vec ctx th now = some b →
      ∃ d ∈ store, d.tenant_id = ctx.tenant_id ∧ d.endpoint = ctx.endpoint ∧
        d.backend = ctx.backend ∧
        (d.expires_at = none ∨ ∃ e, d.expires_at = some e ∧ now < e) ∧
        th ≤ 1 - E.cosDist d.embedding vec) := by
  constructor
  · intro h
    unfold osSearch at h
    rcases hm : (store.filter (osFilter ctx now)).argmax
        (fun d => cosine_similarity E.sqrtQ vec d.embedding) with _ | d
    · rw [hm] at h; exact absurd h (by simp)
    · rw [hm] at h
      dsimp only at h
      have hmem : d ∈ store.filter (osFilter ctx now) :=
        List.argmax_mem (Option.mem_def.mpr hm)
      have hstore : d ∈ store := (List.mem_filter.mp hmem).1
      have hfilt : osFilter ctx now d = true := (List.mem_filter.mp hmem).2
      by_cases hth : th ≤ cosine_similarity E.sqrtQ vec d.embedding
      · rw [if_pos hth] at h
        refine ⟨d, hstore, ?_⟩
        simp only [osFilter, osFilterBase, Bool.and_eq_true, beq_iff_eq] at hfilt
        obtain ⟨⟨⟨⟨⟨ht, he⟩, hb⟩, hex⟩, _⟩, _⟩ := hfilt
        refine ⟨ht, he, hb, ?_, hth, h⟩
        revert hex
        rcases hde : d.expires_at with _ | e
        · intro hex; exact absurd hex (by simp)
        · intro hex; exact ⟨e, rfl, by simpa using hex⟩
      · rw [if_neg hth] at h; exact absurd h (by simp)
  · intro h
    unfold pgSearch at h
    rcases hm : (store.filter (pgFilter ctx now)).argmin
        (fun d => E.cosDist d.embedding vec) with _ | d
    · rw [hm] at h; exact absurd h (by simp)
    · rw [hm] at h
      dsimp only at h
      have hmem : d ∈ store.filter (pgFilter ctx now) :=
        List.argmin_mem (Option.mem_def.mpr hm)
      have hstore : d ∈ store := (List.mem_filter.mp hmem).1
      have hfilt : pgFilter ctx now d = true := (List.mem_filter.mp hmem).2
      by_cases hth : th ≤ 1 - E.cosDist d.embedding vec
      · refine ⟨d, hstore, ?_⟩
        simp only [pgFilter, Bool.and_eq_true, beq_iff_eq] at hfilt
        obtain ⟨⟨⟨⟨⟨ht, he⟩, hb⟩, _⟩, _⟩, hex⟩ := hfilt
        refine ⟨ht, he, hb, ?_, hth⟩
        revert hex
        rcases hde : d.expires_at with _ | e
        · intro _; exact Or.inl rfl
        · intro hex; exact Or.inr ⟨e, rfl, by simpa using hex⟩
      · rw [if_neg hth] at h; exact absurd h (by simp)

/-- C2 witness: a fresh matching entry hit under the vector-index provider
satisfies all the amended conditions. -/
theorem C2_witness :
    ∃ d ∈ [dW2], d.tenant_id = ctxW2.tenant_id ∧ d.endpoint = ctxW2.endpoint ∧
      d.backend = ctxW2.backend ∧ (∃ e, d.expires_at = some e ∧ 3 ≤ e) ∧
      (9/10 : ℚ) ≤ cosine_similarity envOK.sqrtQ [1] d.embedding ∧
      envOK.loads d.response_json = some () := by
  refine (C2_semantic_hit_conditions envOK [dW2] [1] ctxW2 (9/10) 3 ()).1 ?_
  have hfil : List.filter (osFilter ctxW2 3) [dW2] = [dW2] := by decide
  have hsim : cosine_similarity envOK.sqrtQ [1] dW2.embedding = 1 := by
    norm_num [cosine_similarity, dotNorms, envOK, envU, dW2]
  unfold osSearch
  rw [hfil, List.argmax_singleton]
  dsimp only
  rw [hsim]
  rw [if_pos (by norm_num)]
  rfl

/-- C8 counterexample: a stored entry with null `llm_source` does NOT match a
query context that carries an `llm_source` under the vector-index provider —
the router appends `{"term": {"llm_source": ...}}` and a `term` filter never
matches a null field — so the lookup misses even with identical embeddings
and matching exact filters; the same entry does match under the relational
provider. This refutes the claim's "for both providers". -/
theorem C8_counterexample :
    osFilter ctx8 0 d8 = false ∧
    osSearch envOK [d8] [1] ctx8 (9/10) 0 = none ∧
    pgFilter ctx8 0 d8 = true := by
  refine ⟨by decide, ?_, by decide⟩
  unfold osSearch
  have hfil : List.filter (osFilter ctx8 0) [d8] = [] := by decide
  rw [hfil, List.argmax_nil]

/-- C8 amended: null stored `llm_source`/`model` act as wildcards under the
relational provider (the filter degenerates to the exact tenant/endpoint/
backend filters plus freshness); under the vector-index provider a null
stored `llm_source`/`model` matches exactly the query contexts whose
`llm_source`/`model` are absent (or empty). `tenant_id`, `endpoint` and
`backend` remain exact-match filters in both. -/
theorem C8_null_wildcard (ctx : SemContext) (now : Nat) (d : SemDoc)
    (hl : d.llm_source = none) (hm : d.model = none) :
    pgFilter ctx now d =
      (d.tenant_id == ctx.tenant_id && d.endpoint == ctx.endpoint &&
       d.backend == ctx.backend &&
       (match d.expires_at with
        | some e => now < e
        | none => true)) ∧
    osFilter ctx now d =
      (osFilterBase ctx now d && !strTruthy ctx.llm_source &&
       !strTruthy ctx.model) := by
  have key : ∀ o : Option String,
      (!strTruthy o || ((none : Option String) == o)) = !strTruthy o := by
    intro o
    rcases o with _ | s
    · rfl
    · simp [strTruthy]
  constructor
  · simp [pgFilter, hl, hm]
  · simp only [osFilter, hl, hm, key]

/-- C8 witness: the amended filter characterizations at a concrete entry and
context. -/
theorem C8_witness :
    pgFilter ctx8w 7 d8w =
      (d8w.tenant_id == ctx8w.tenant_id && d8w.endpoint == ctx8w.endpoint &&
       d8w.backend == ctx8w.backend &&
       (match d8w.expires_at with
        | some e => 7 < e
        | none => true)) ∧
    osFilter ctx8w 7 d8w =
      (osFilterBase ctx8w 7 d8w && !strTruthy ctx8w.llm_source &&
       !strTruthy ctx8w.model) :=
  C8_null_wildcard ctx8w 7 d8w rfl rfl

/-- A broken exact-cache read behaves exactly like a disabled exact cache. -/
theorem cache_get_disableFaulted (S : Settings) (f : Faults) (w : World)
    (k : String) :
    cache_get (disableFaulted S f) noFaults w k = cache_get S f w k := by
  unfold cache_get disableFaulted noFaults
  cases hce : S.cacheEnable <;> cases heg : f.exactGet <;> simp [hce, heg]

/-- A broken embedder or semantic-store read behaves exactly like a disabled
semantic cache. -/
theorem sem_try_get_disableFaulted {Body : Type} (S : Settings) (E : Env Body)
    (f : Faults) (store : List SemDoc) (now : Nat) (text : String)
    (ctx : SemContext) :
    sem_try_get (disableFaulted S f) E noFaults store now text ctx =
      sem_try_get S E f store now text ctx := by
  unfold sem_try_get semEnabled semEmbed disableFaulted noFaults
  by_cases ht : text = "" <;>
    cases hce : S.semcacheEnable <;> cases hee : E.embedEnabled <;>
      cases hfe : f.embed <;> cases hfs : f.semSearch <;>
        simp [hce, hee, hfe, hfs, ht]

/-- The handler preludes read none of the fields `disableFaulted` changes. -/
theorem stageOf_disableFaulted {Body : Type} (S : Settings) (E : Env Body)
    (cfg : TenantConfig) (f : Faults) (req : Req) :
    stageOf (disableFaulted S f) E cfg req = stageOf S E cfg req := rfl

/-- The miss continuation yields the same outcome under a fault schedule as
under the fault-matching disabled configuration. -/
theorem runMiss_result_disableFaulted {Body : Type} (S : Settings) (E : Env Body)
    (f : Faults) (w : World) (tid : String) (a : TailArgs) :
    (runMiss (disableFaulted S f) E noFaults w tid a).result =
      (runMiss S E f w tid a).result := by
  unfold runMiss
  rcases hsl : a.semLlm with e | llm
  · rfl
  · dsimp only
    rw [sem_try_get_disableFaulted]
    rcases hs : (sem_try_get S E f w.sem w.now a.semText
        { tenant_id := tid, endpoint := a.endpoint, backend := a.backend,
          llm_source := llm, model := a.semModel }) with _ | b
    · rcases hu : E.upstream a.fwdBody with _ | ⟨st, ob⟩
      · rfl
      · dsimp only
        by_cases h5 : 500 ≤ st
        · rw [if_pos h5, if_pos h5]
        · rw [if_neg h5, if_neg h5]
          rcases ob with _ | out <;> rfl
    · rfl

/-- The pipeline tail yields the same outcome under a fault schedule as under
the fault-matching disabled configuration. -/
theorem runTail_result_disableFaulted {Body : Type} (S : Settings) (E : Env Body)
    (f : Faults) (w : World) (tid : String) (a : TailArgs) :
    (runTail (disableFaulted S f) E noFaults w tid a).result =
      (runTail S E f w tid a).result := by
  unfold runTail
  rw [cache_get_disableFaulted]
  rcases hg : cache_get S f w a.ck with _ | s
  · exact runMiss_result_disableFaulted S E f w tid a
  · dsimp only
    by_cases hs : s = ""
    · rw [if_pos hs, if_pos hs]
      exact runMiss_result_disableFaulted S E f w tid a
    · rw [if_neg hs, if_neg hs]

/-- C3: for every request, every fault combination over the best-effort cache
operations (exact-cache read or write error, embedder failure, semantic-store
read or write error) leaves the handler's outcome identical to running with
the affected cache tiers disabled; in particular no cache failure ever
surfaces an error status — only the upstream-failure and validation outcomes
of the cache-disabled run remain. -/
theorem C3_cache_failures_invisible {Body : Type} (S : Settings) (E : Env Body)
    (tenantId : String) (cfg : TenantConfig) (f : Faults) (w : World)
    (req : Req) :
    (run S E tenantId cfg f w req).result =
      (run (disableFaulted S f) E tenantId cfg noFaults w req).result := by
  unfold run runStage
  rw [stageOf_disableFaulted]
  rcases h : stageOf S E cfg req with r | a
  · rfl
  · exact (runTail_result_disableFaulted S E f w tenantId a).symm

/-- The miss continuation forwards either nothing or exactly the staged
body. -/
theorem runMiss_sentBody {Body : Type} (S : Settings) (E : Env Body) (f : Faults)
    (w : World) (tid : String) (a : TailArgs) :
    (runMiss S E f w tid a).sentBody = none ∨
      (runMiss S E f w tid a).sentBody = some a.fwdBody := by
  unfold runMiss earlyOut
  rcases a.semLlm with e | llm
  · exact Or.inl rfl
  · dsimp only
    rcases (sem_try_get S E f w.sem w.now a.semText
        { tenant_id := tid, endpoint := a.endpoint, backend := a.backend,
          llm_source := llm, model := a.semModel }) with _ | b
    · rcases E.upstream a.fwdBody with _ | ⟨st, ob⟩
      · exact Or.inr rfl
      · dsimp only
        by_cases h5 : 500 ≤ st
        · rw [if_pos h5]; exact Or.inr rfl
        · rw [if_neg h5]
          rcases ob with _ | out
          · exact Or.inr rfl
          · exact Or.inr rfl
    · exact Or.inl rfl

/-- The pipeline tail forwards either nothing or exactly the staged body. -/
theorem runTail_sentBody {Body : Type} (S : Settings) (E : Env Body) (f : Faults)
    (w : World) (tid : String) (a : TailArgs) :
    (runTail S E f w tid a).sentBody = none ∨
      (runTail S E f w tid a).sentBody = some a.fwdBody := by
  unfold runTail earlyOut
  rcases cache_get S f w a.ck with _ | s
  · exact runMiss_sentBody S E f w tid a
  · dsimp only
    by_cases hs : s = ""
    · rw [if_pos hs]; exact runMiss_sentBody S E f w tid a
    · rw [if_neg hs]
      rcases E.loads s with _ | b
      · exact Or.inl rfl
      · exact Or.inl rfl

set_option maxHeartbeats 1000000 in
/-- The staged forwarded body of `vector_search` does not depend on the
configuration: only the cache key reads `cache_normalize_query`. -/
theorem vector_stage_fwdBody_indep {Body : Type} (S1 S2 : Settings) (E : Env Body)
    (cfg : TenantConfig) (r : VectorReq) :
    (vector_stage S1 E cfg r).map TailArgs.fwdBody =
      (vector_stage S2 E cfg r).map TailArgs.fwdBody := by
  unfold vector_stage
  rcases pick_backend cfg r.backend with e | backend
  · rfl
  · dsimp only
    rcases upstream_and_auth cfg backend with m | ba
    · rfl
    · simp only [Except.map]

set_option maxHeartbeats 1000000 in
/-- The staged forwarded body of `hybrid_search` does not depend on the
configuration. -/
theorem hybrid_stage_fwdBody_indep {Body : Type} (S1 S2 : Settings) (E : Env Body)
    (cfg : TenantConfig) (r : HybridReq) :
    (hybrid_stage S1 E cfg r).map TailArgs.fwdBody =
      (hybrid_stage S2 E cfg r).map TailArgs.fwdBody := by
  unfold hybrid_stage
  rcases pick_backend cfg r.backend with e | backend
  · rfl
  · dsimp only
    rcases upstream_and_auth cfg backend with m | ba
    · rfl
    · simp only [Except.map]

set_option maxHeartbeats 1000000 in
/-- The staged forwarded body of `fts_search` does not depend on the
configuration. -/
theorem fts_stage_fwdBody_indep {Body : Type} (S1 S2 : Settings) (E : Env Body)
    (cfg : TenantConfig) (r : FtsReq) :
    (fts_stage S1 E cfg r).map TailArgs.fwdBody =
      (fts_stage S2 E cfg r).map TailArgs.fwdBody := by
  unfold fts_stage
  rcases pick_backend cfg r.backend with e | backend
  · rfl
  · dsimp only
    rcases upstream_and_auth cfg backend with m | ba
    · rfl
    · simp only [Except.map]

set_option maxHeartbeats 1000000 in
/-- The staged forwarded body of `rag` does not depend on the
configuration. -/
theorem rag_stage_fwdBody_indep {Body : Type} (S1 S2 : Settings) (E : Env Body)
    (cfg : TenantConfig) (r : RagReq) :
    (rag_stage S1 E cfg r).map TailArgs.fwdBody =
      (rag_stage S2 E cfg r).map TailArgs.fwdBody := by
  unfold rag_stage
  rcases pick_backend cfg r.backend with e | backend
  · rfl
  · dsimp only
    rcases upstream_and_auth cfg backend with m | ba
    · rfl
    · simp only [Except.map]

set_option maxHeartbeats 1500000 in
/-- The staged forwarded body of the chat handlers does not depend on the
configuration. -/
theorem chat_stage_fwdBody_indep {Body : Type} (endpoint path : String)
    (S1 S2 : Settings) (E : Env Body) (cfg : TenantConfig) (r : ChatReq) :
    (chat_stage endpoint path S1 E cfg r).map TailArgs.fwdBody =
      (chat_stage endpoint path S2 E cfg r).map TailArgs.fwdBody := by
  unfold chat_stage
  rcases pick_backend cfg r.backend with e | backend
  · rfl
  · dsimp only
    rcases upstream_and_auth cfg backend with m | ba
    · rfl
    · dsimp only
      rcases pick_llm cfg r.llm_source with e2 | llm
      · rfl
      · simp only [Except.map]

/-- The staged forwarded body does not depend on the configuration at all:
only the cache key reads `cache_normalize_query`. -/
theorem stageOf_fwdBody_indep {Body : Type} (S1 S2 : Settings) (E : Env Body)
    (cfg : TenantConfig) (req : Req) :
    (stageOf S1 E cfg req).map TailArgs.fwdBody =
      (stageOf S2 E cfg req).map TailArgs.fwdBody := by
  cases req with
  | vector r => exact vector_stage_fwdBody_indep S1 S2 E cfg r
  | hybrid r => exact hybrid_stage_fwdBody_indep S1 S2 E cfg r
  | fts r => exact fts_stage_fwdBody_indep S1 S2 E cfg r
  | rag r => exact rag_stage_fwdBody_indep S1 S2 E cfg r
  | chat r =>
      exact chat_stage_fwdBody_indep "/v1/chat/conversation" "/chat/conversation"
        S1 S2 E cfg r
  | agentic r =>
      exact chat_stage_fwdBody_indep "/v1/chat/agentic" "/chat/agentic"
        S1 S2 E cfg r

/-- C7: the body forwarded to the upstream is identical whether query
normalization is enabled or disabled — whenever two runs of the same request
(under either flag value, any fault schedule and any cache state) both reach
the upstream, they send the same body; normalization affects only the cache
key. -/
theorem C7_normalization_never_changes_forwarded_body {Body : Type}
    (S : Settings) (E : Env Body) (tid1 tid2 : String) (cfg : TenantConfig)
    (f1 f2 : Faults) (w1 w2 : World) (req : Req) (b1 b2 : Bool)
    (body1 body2 : Jv)
    (h1 : (run { S with cacheNormalizeQuery := b1 } E tid1 cfg f1 w1 req).sentBody
            = some body1)
    (h2 : (run { S with cacheNormalizeQuery := b2 } E tid2 cfg f2 w2 req).sentBody
            = some body2) :
    body1 = body2 := by
  unfold run runStage at h1 h2
  rcases hs1 : stageOf { S with cacheNormalizeQuery := b1 } E cfg req with r1 | a1
  · rw [hs1] at h1; exact absurd h1 (by simp [earlyOut])
  · rw [hs1] at h1
    rcases hs2 : stageOf { S with cacheNormalizeQuery := b2 } E cfg req with r2 | a2
    · rw [hs2] at h2; exact absurd h2 (by simp [earlyOut])
    · rw [hs2] at h2
      have hb1 : body1 = a1.fwdBody := by
        rcases runTail_sentBody { S with cacheNormalizeQuery := b1 } E f1 w1 tid1 a1
          with h | h
        · rw [h] at h1; exact absurd h1 (by simp)
        · rw [h] at h1; exact (Option.some.inj h1).symm
      have hb2 : body2 = a2.fwdBody := by
        rcases runTail_sentBody { S with cacheNormalizeQuery := b2 } E f2 w2 tid2 a2
          with h | h
        · rw [h] at h2; exact absurd h2 (by simp)
        · rw [h] at h2; exact (Option.some.inj h2).symm
      have hind := stageOf_fwdBody_indep { S with cacheNormalizeQuery := b1 }
        { S with cacheNormalizeQuery := b2 } E cfg req
      rw [hs1, hs2] at hind
      simp only [Except.map] at hind
      rw [hb1, hb2]
      exact Except.ok.inj hind

set_option maxHeartbeats 2000000 in
/-- C7 witness: with both caches off, a vector request forwards the same body
under normalization on and off. -/
theorem C7_witness :
    (run { Soff with cacheNormalizeQuery := true } envOK "default" cfg0
        noFaults w0
        (.vector { query := "Hello, World", top_k := 3, backend := none })).sentBody
      = some (Jv.obj [("query", .str "Hello, World"), ("top_k", .int 3)]) ∧
    (run { Soff with cacheNormalizeQuery := false } envOK "default" cfg0
        noFaults w0
        (.vector { query := "Hello, World", top_k := 3, backend := none })).sentBody
      = some (Jv.obj [("query", .str "Hello, World"), ("top_k", .int 3)]) ∧
    (Jv.obj [("query", .str "Hello, World"), ("top_k", .int 3)]) =
      (Jv.obj [("query", .str "Hello, World"), ("top_k", .int 3)]) :=
  ⟨rfl, rfl,
   C7_normalization_never_changes_forwarded_body Soff envOK "default" "default"
     cfg0 noFaults noFaults w0 w0
     (.vector { query := "Hello, World", top_k := 3, backend := none })
     true false _ _ rfl rfl⟩

/-- A staged request that misses the exact cache reduces to the miss
continuation. -/
theorem run_miss_red {Body : Type} {S : Settings} {E : Env Body} {tid : String}
    {cfg : TenantConfig} {f : Faults} {w : World} {req : Req} {a : TailArgs}
    (hst : stageOf S E cfg req = .ok a)
    (hmiss : cache_get S f w a.ck = none) :
    run S E tid cfg f w req = runMiss S E f w tid a := by
  unfold run runStage
  rw [hst]
  dsimp only
  unfold runTail
  rw [hmiss]

/-- C5 counterexample: at a concrete request where the upstream answers 404,
the router does not pass the status through: it returns the upstream's JSON
body as a plain return value, which FastAPI sends with HTTP 200, not 404. -/
theorem C5_counterexample :
    (run S0 (envU up404) "default" cfg0 noFaults w0
        (.vector { query := "q", top_k := 5, backend := none })).result = .ok () ∧
    statusOf (run S0 (envU up404) "default" cfg0 noFaults w0
        (.vector { query := "q", top_k := 5, backend := none })).result = 200 ∧
    (200 : Nat) ≠ 404 :=
  ⟨rfl, rfl, by decide⟩

/-- C5 amended: for every request that misses both caches and whose upstream
responds with a status in [400, 500) and a JSON body, the router returns that
body as the handler's plain return value — the body is passed through, but
the response status is 200: the upstream's 4xx status code is not
propagated. -/
theorem C5_upstream_4xx_body_as_200 {Body : Type} (S : Settings) (E : Env Body)
    (tid : String) (cfg : TenantConfig) (f : Faults) (w : World) (req : Req)
    (a : TailArgs) (llm : Option String) (st : Nat) (b : Body)
    (hst : stageOf S E cfg req = .ok a)
    (hmiss : cache_get S f w a.ck = none)
    (hllm : a.semLlm = .ok llm)
    (hsem : sem_try_get S E f w.sem w.now a.semText
      { tenant_id := tid, endpoint := a.endpoint, backend := a.backend,
        llm_source := llm, model := a.semModel } = none)
    (hup : E.upstream a.fwdBody = .resp st (some b))
    (h4 : 400 ≤ st) (h5 : st < 500) :
    (run S E tid cfg f w req).result = .ok b ∧
    statusOf (run S E tid cfg f w req).result = 200 := by
  have hmain : (run S E tid cfg f w req).result = .ok b := by
    rw [run_miss_red hst hmiss]
    unfold runMiss
    rw [hllm]
    dsimp only
    rw [hsem]
    dsimp only
    rw [hup]
    dsimp only
    rw [if_neg (by omega)]
  exact ⟨hmain, by rw [hmain]; rfl⟩

/-- C5 witness: a teapot upstream's body comes back with status 200. -/
theorem C5_witness :
    (run Soff (envU up418) "default" cfg0 noFaults w0
        (.fts { query := "w", top_k := 5, mode := "both", backend := none })).result
      = .ok () ∧
    statusOf (run Soff (envU up418) "default" cfg0 noFaults w0
        (.fts { query := "w", top_k := 5, mode := "both", backend := none })).result
      = 200 :=
  C5_upstream_4xx_body_as_200 Soff (envU up418) "default" cfg0 noFaults w0
    (.fts { query := "w", top_k := 5, mode := "both", backend := none })
    _ _ 418 () rfl rfl rfl rfl rfl (by decide) (by decide)

/-- C6 counterexample: at a concrete request where the upstream call raises a
transport error, the router does not return 502 — the exception is never
caught by the handler, so FastAPI's default handler answers 500. -/
theorem C6_counterexample :
    (run S0 (envU upDown) "default" cfg0 noFaults w0
        (.vector { query := "q6", top_k := 5, backend := none })).result =
      .unhandled "httpx transport error" ∧
    statusOf (run S0 (envU upDown) "default" cfg0 noFaults w0
        (.vector { query := "q6", top_k := 5, backend := none })).result = 500 ∧
    (500 : Nat) ≠ 502 :=
  ⟨rfl, rfl, by decide⟩

/-- C6 amended: for every request that misses both caches, if the upstream
answers with a 5xx status the router raises HTTP 502 with a body naming the
backend and performs no cache write (the world is unchanged); if the upstream
call raises a transport error, the exception propagates uncaught (rendered as
HTTP 500 by the framework, not 502) and likewise no cache write occurs. -/
theorem C6_upstream_5xx_and_transport {Body : Type} (S : Settings)
    (E : Env Body) (tid : String) (cfg : TenantConfig) (f : Faults) (w : World)
    (req : Req) (a : TailArgs) (llm : Option String)
    (hst : stageOf S E cfg req = .ok a)
    (hmiss : cache_get S f w a.ck = none)
    (hllm : a.semLlm = .ok llm)
    (hsem : sem_try_get S E f w.sem w.now a.semText
      { tenant_id := tid, endpoint := a.endpoint, backend := a.backend,
        llm_source := llm, model := a.semModel } = none) :
    (E.upstream a.fwdBody = .transportError →
      (run S E tid cfg f w req).result = .unhandled "httpx transport error" ∧
      (run S E tid cfg f w req).world = w) ∧
    (∀ st ob, E.upstream a.fwdBody = .resp st ob → 500 ≤ st →
      (run S E tid cfg f w req).result =
        .httpError 502 ("Upstream error (" ++ a.backend ++ ")") ∧
      (run S E tid cfg f w req).world = w) := by
  have hred : run S E tid cfg f w req = runMiss S E f w tid a :=
    run_miss_red hst hmiss
  constructor
  · intro hup
    rw [hred]
    unfold runMiss
    rw [hllm]
    dsimp only
    rw [hsem]
    dsimp only
    rw [hup]
    exact ⟨rfl, rfl⟩
  · intro st ob hup h5
    rw [hred]
    unfold runMiss
    rw [hllm]
    dsimp only
    rw [hsem]
    dsimp only
    rw [hup]
    dsimp only
    rw [if_pos h5]
    exact ⟨rfl, rfl⟩

/-- C6 witness: a 503 upstream yields 502 naming the backend and leaves the
caches untouched. -/
theorem C6_witness :
    (run Soff (envU up503) "default" cfg0 noFaults w0
        (.hybrid { query := "h", top_k := 5, alpha := 1/2, backend := none })).result
      = .httpError 502 "Upstream error (opensearch)" ∧
    (run Soff (envU up503) "default" cfg0 noFaults w0
        (.hybrid { query := "h", top_k := 5, alpha := 1/2, backend := none })).world
      = w0 :=
  (C6_upstream_5xx_and_transport Soff (envU up503) "default" cfg0 noFaults w0
      (.hybrid { query := "h", top_k := 5, alpha := 1/2, backend := none })
      _ _ rfl rfl rfl rfl).2 503 (some ()) rfl (by decide)

/-- C9 counterexample: at a concrete request whose tenant lacks the URL for
the selected backend, the router does not surface HTTP 400: the `ValueError`
of `upstream_for` propagates uncaught and FastAPI answers 500. -/
theorem C9_counterexample :
    (run S0 envOK "default" cfgNoPg noFaults w0
        (.vector { query := "q9", top_k := 5, backend := none })).result =
      .unhandled "Upstream not configured for backend postgres" ∧
    statusOf (run S0 envOK "default" cfgNoPg noFaults w0
        (.vector { query := "q9", top_k := 5, backend := none })).result = 500 ∧
    (500 : Nat) ≠ 400 :=
  ⟨rfl, rfl, by decide⟩

/-- C9 amended: for every request whose resolved backend passes validation
but has no configured upstream URL, resolving the upstream fails with
`ValueError("Upstream not configured for backend ...")`, which the handler
does not catch: the outcome is that uncaught exception (HTTP 500 via the
framework), not HTTP 400. -/
theorem C9_missing_upstream_is_unhandled {Body : Type} (S : Settings)
    (E : Env Body) (tid : String) (cfg : TenantConfig) (f : Faults) (w : World)
    (req : Req) (bk m : String)
    (hpb : pick_backend cfg (reqBackend req) = .ok bk)
    (hup : upstream_for cfg bk = .error m) :
    (run S E tid cfg f w req).result = .unhandled m := by
  cases req with
  | vector r =>
    simp only [reqBackend] at hpb
    unfold run runStage stageOf vector_stage upstream_and_auth
    dsimp only
    rw [hpb]
    dsimp only
    rw [hup]
    rfl
  | hybrid r =>
    simp only [reqBackend] at hpb
    unfold run runStage stageOf hybrid_stage upstream_and_auth
    dsimp only
    rw [hpb]
    dsimp only
    rw [hup]
    rfl
  | fts r =>
    simp only [reqBackend] at hpb
    unfold run runStage stageOf fts_stage upstream_and_auth
    dsimp only
    rw [hpb]
    dsimp only
    rw [hup]
    rfl
  | rag r =>
    simp only [reqBackend] at hpb
    unfold run runStage stageOf rag_stage upstream_and_auth
    dsimp only
    rw [hpb]
    dsimp only
    rw [hup]
    rfl
  | chat r =>
    simp only [reqBackend] at hpb
    unfold run runStage stageOf chat_stage upstream_and_auth
    dsimp only
    rw [hpb]
    dsimp only
    rw [hup]
    rfl
  | agentic r =>
    simp only [reqBackend] at hpb
    unfold run runStage stageOf chat_stage upstream_and_auth
    dsimp only
    rw [hpb]
    dsimp only
    rw [hup]
    rfl

/-- C9 witness: a tenant without the oracle URL fails with the uncaught
`ValueError` on an fts request defaulting to oracle. -/
theorem C9_witness :
    (run S0 envOK "default" cfgNoOra noFaults w0
        (.fts { query := "f9", top_k := 10, mode := "both", backend := none })).result
      = .unhandled "Upstream not configured for backend oracle" :=
  C9_missing_upstream_is_unhandled S0 envOK "default" cfgNoOra noFaults w0
    (.fts { query := "f9", top_k := 10, mode := "both", backend := none })
    "oracle" "Upstream not configured for backend oracle" rfl rfl

/-- C4: evaluation at the S6 scenario input. The inbound body carries
`_upstream_user`/`_upstream_pass`, but FastAPI validates it into `FtsReq`
(src/app/types.py lines 15-19) whose declared fields do not include them, so
they are dropped before the handler rebuilds the payload from the model's
fields; `_extract_auth` therefore never sees them. The forwarded body indeed
lacks the reserved keys (vacuously), but the upstream call is made with the
tenant's configured credentials `("tu", "tp")` — not the override
`("u", "p")` promised by the claim and by `_extract_auth`'s own docstring. -/
theorem C4_override_never_applies :
    (serve_fts S0 envOK "default" cfgAuth noFaults w0 rawC4).sentBody =
      some (.obj [("query", .str "q"), ("top_k", .int 5), ("mode", .str "both")]) ∧
    (serve_fts S0 envOK "default" cfgAuth noFaults w0 rawC4).sentAuth =
      some (some (.str "tu", .str "tp")) ∧
    (some (some ((Jv.str "tu"), (Jv.str "tp"))) : Option (Option (Jv × Jv))) ≠
      some (some (.str "u", .str "p")) := by
  refine ⟨rfl, rfl, ?_⟩
  intro h
  simp only [Option.some.injEq, Prod.mk.injEq, Jv.str.injEq] at h
  exact absurd h.1 (by decide)

/-- `SemanticCache.put` touches only the semantic store. -/
theorem sem_put_exact {Body : Type} (S : Settings) (E : Env Body) (f : Faults)
    (w : World) (text : String) (ctx : SemContext) (resp : Body) :
    (sem_put S E f w text ctx resp).exact = w.exact := by
  unfold sem_put
  split
  · rcases semEmbed E f text with _ | vec
    · rfl
    · dsimp only
      split
      · rfl
      · split
        · rfl
        · rfl
  · rfl

/-- `SemanticCache.put` does not change the clock. -/
theorem sem_put_now {Body : Type} (S : Settings) (E : Env Body) (f : Faults)
    (w : World) (text : String) (ctx : SemContext) (resp : Body) :
    (sem_put S E f w text ctx resp).now = w.now := by
  unfold sem_put
  split
  · rcases semEmbed E f text with _ | vec
    · rfl
    · dsimp only
      split
      · rfl
      · split
        · rfl
        · rfl
  · rfl

/-- Inversion of the miss continuation: a plain-return outcome that invoked
the upstream can only come from upstream success, and its post-state is the
double-write (semantic insert, then `SETEX` of the serialized body). -/
theorem runMiss_write_inv {Body : Type} {S : Settings} {E : Env Body}
    {f : Faults} {w : World} {tid : String} {a : TailArgs} {out : Body}
    (hres : (runMiss S E f w tid a).result = .ok out)
    (hcall : (runMiss S E f w tid a).calledUpstream = true) :
    ∃ llm, a.semLlm = .ok llm ∧
      (runMiss S E f w tid a).world =
        cache_setex S f
          (sem_put S E f w a.semText
            { tenant_id := tid, endpoint := a.endpoint, backend := a.backend,
              llm_source := llm, model := a.semModel } out)
          a.ck S.cacheTtl (E.dumps out) := by
  unfold runMiss at hres hcall ⊢
  revert hres hcall
  rcases hsl : a.semLlm with e | llm
  · intro hres hcall
    dsimp only at hcall
    exact absurd hcall (by simp [earlyOut])
  · intro hres hcall
    dsimp only at hres hcall ⊢
    revert hres hcall
    rcases hs : (sem_try_get S E f w.sem w.now a.semText
        { tenant_id := tid, endpoint := a.endpoint, backend := a.backend,
          llm_source := llm, model := a.semModel }) with _ | b
    · intro hres hcall
      dsimp only at hres hcall ⊢
      revert hres hcall
      rcases hu : E.upstream a.fwdBody with _ | ⟨st, ob⟩
      · intro hres hcall
        dsimp only at hres
        exact absurd hres (by simp)
      · intro hres hcall
        dsimp only at hres hcall ⊢
        by_cases h5 : 500 ≤ st
        · rw [if_pos h5] at hres
          exact absurd hres (by simp)
        · rw [if_neg h5] at hres hcall ⊢
          revert hres hcall
          rcases ob with _ | o
          · intro hres hcall
            dsimp only at hres
            exact absurd hres (by simp)
          · intro hres hcall
            dsimp only at hres ⊢
            have hbo : o = out := by
              simp only [RouterResult.ok.injEq] at hres
              exact hres
            exact ⟨llm, rfl, by rw [hbo]⟩
    · intro hres hcall
      dsimp only at hcall
      exact absurd hcall (by simp)

/-- Inversion of the pipeline tail: same as `runMiss_write_inv`, via the
exact-cache branch analysis (a cache hit never invokes the upstream). -/
theorem runTail_write_inv {Body : Type} {S : Settings} {E : Env Body}
    {f : Faults} {w : World} {tid : String} {a : TailArgs} {out : Body}
    (hres : (runTail S E f w tid a).result = .ok out)
    (hcall : (runTail S E f w tid a).calledUpstream = true) :
    ∃ llm, a.semLlm = .ok llm ∧
      (runTail S E f w tid a).world =
        cache_setex S f
          (sem_put S E f w a.semText
            { tenant_id := tid, endpoint := a.endpoint, backend := a.backend,
              llm_source := llm, model := a.semModel } out)
          a.ck S.cacheTtl (E.dumps out) := by
  unfold runTail at hres hcall ⊢
  revert hres hcall
  rcases hg : cache_get S f w a.ck with _ | s
  · intro hres hcall
    exact runMiss_write_inv hres hcall
  · intro hres hcall
    dsimp only at hres hcall ⊢
    by_cases hse : s = ""
    · rw [if_pos hse] at hres hcall ⊢
      exact runMiss_write_inv hres hcall
    · rw [if_neg hse] at hres hcall ⊢
      revert hres hcall
      rcases hl : E.loads s with _ | b
      · intro hres hcall
        dsimp only at hcall
        exact absurd hcall (by simp [earlyOut])
      · intro hres hcall
        dsimp only at hcall
        exact absurd hcall (by simp)

/-- A fresh exact-cache hit short-circuits the pipeline: the cached string is
decoded and returned without calling the upstream. -/
theorem runTail_hit {Body : Type} {S : Settings} {E : Env Body} {f : Faults}
    {w : World} {tid : String} {a : TailArgs} {s : String} {b : Body}
    (hg : cache_get S f w a.ck = some s) (hne : s ≠ "")
    (hl : E.loads s = some b) :
    (runTail S E f w tid a).result = .ok b ∧
    (runTail S E f w tid a).calledUpstream = false := by
  unfold runTail
  rw [hg]
  dsimp only
  rw [if_neg hne, hl]
  exact ⟨rfl, rfl⟩

/-- C1: for every pair of requests with identical canonical fingerprints
(equal cache keys, i.e. same endpoint, backend and endpoint-specific
fingerprint subset), if the first request returns successfully via the
upstream — thereby populating the exact cache before its response is
returned, which is visible here as the write being part of the first run's
final state — then the second request, issued strictly within `cache_ttl`
seconds of the first, returns the same response body from the exact cache
and does not invoke the upstream. -/
theorem C1_exact_cache_roundtrip {Body : Type} (S : Settings) (E : Env Body)
    (tid1 tid2 : String) (cfg1 cfg2 : TenantConfig) (w : World)
    (req1 req2 : Req) (a1 a2 : TailArgs) (out : Body) (n2 : Nat)
    (hS : S.cacheEnable = true)
    (hdne : E.dumps out ≠ "")
    (hrt : E.loads (E.dumps out) = some out)
    (hst1 : stageOf S E cfg1 req1 = .ok a1)
    (hst2 : stageOf S E cfg2 req2 = .ok a2)
    (hck : a2.ck = a1.ck)
    (hres1 : (run S E tid1 cfg1 noFaults w req1).result = .ok out)
    (hcall1 : (run S E tid1 cfg1 noFaults w req1).calledUpstream = true)
    (httl : n2 < w.now + S.cacheTtl) :
    (run S E tid2 cfg2 noFaults
        { (run S E tid1 cfg1 noFaults w req1).world with now := n2 } req2).result
      = .ok out ∧
    (run S E tid2 cfg2 noFaults
        { (run S E tid1 cfg1 noFaults w req1).world with now := n2 } req2).calledUpstream
      = false := by
  have hrun1 : run S E tid1 cfg1 noFaults w req1 = runTail S E noFaults w tid1 a1 := by
    unfold run runStage
    rw [hst1]
  rw [hrun1] at hres1 hcall1 ⊢
  obtain ⟨llm, hllm, hworld⟩ := runTail_write_inv hres1 hcall1
  have hget : cache_get S noFaults
      { (runTail S E noFaults w tid1 a1).world with now := n2 } a2.ck
      = some (E.dumps out) := by
    rw [hworld]
    unfold cache_setex
    rw [if_pos ⟨hS, by simp [noFaults]⟩]
    unfold cache_get
    rw [if_pos hS, if_neg (by simp [noFaults])]
    dsimp only
    rw [hck, sem_put_now]
    simp only [List.lookup, beq_self_eq_true]
    rw [if_pos httl]
  have hrun2 : run S E tid2 cfg2 noFaults
      { (runTail S E noFaults w tid1 a1).world with now := n2 } req2 =
      runTail S E noFaults
        { (runTail S E noFaults w tid1 a1).world with now := n2 } tid2 a2 := by
    unfold run runStage
    rw [hst2]
  rw [hrun2]
  exact runTail_hit hget hdne hrt

set_option maxHeartbeats 2000000 in
/-- C1 witness: two identical vector requests against a concrete tenant; the
second, 30 seconds later (TTL 60), is served from the exact cache without an
upstream call. -/
theorem C1_witness :
    (run S0 envOK "default" cfg0 noFaults
        { (run S0 envOK "default" cfg0 noFaults w0
            (.vector { query := "q", top_k := 5, backend := none })).world with
          now := 30 }
        (.vector { query := "q", top_k := 5, backend := none })).result = .ok () ∧
    (run S0 envOK "default" cfg0 noFaults
        { (run S0 envOK "default" cfg0 noFaults w0
            (.vector { query := "q", top_k := 5, backend := none })).world with
          now := 30 }
        (.vector { query := "q", top_k := 5, backend := none })).calledUpstream
      = false :=
  C1_exact_cache_roundtrip S0 envOK "default" "default" cfg0 cfg0 w0
    (.vector { query := "q", top_k := 5, backend := none })
    (.vector { query := "q", top_k := 5, backend := none })
    _ _ () 30 rfl (by decide) rfl rfl rfl rfl rfl rfl (by decide)

end Router
